import Mathlib

/-!
Verification development for the SatAI (Vedika) repository.

The repository is a retrieval-augmented chat application.  The frontend
(`vedika/components/ui/animated-ai-chat.tsx`, `chat-message.tsx`) is embedded
directly below; the backend retrieval pipeline (FastAPI + ChromaDB, not part
of the available sources) is modelled from the specification where a claim
needs it.
-/

namespace SatAI

/-- Message role, from the `type: 'user' | 'assistant'` field of the
`ChatMessage` interface in `chat-message.tsx`. -/
inductive MsgType where
  | user
  | assistant
deriving DecidableEq, Repr

/-- Per-document metadata, from the `metadata` field of entries of
`relevant_documents` in `chat-message.tsx` (the open extension bag of extra
keys is not needed by any claim and is omitted). -/
structure DocMetadata where
  record_name : Option String
  source_file : Option String
deriving DecidableEq, Repr

/-- One retrieved document, from the element type of `relevant_documents` in
`chat-message.tsx`: content, distance, optional metadata.  The TypeScript
`number` is embedded as a rational. -/
structure RelevantDocument where
  content : String
  distance : ℚ
  metadata : Option DocMetadata
deriving DecidableEq, Repr

/-- Assistant-message metadata, from the `metadata` field of the
`ChatMessage` interface in `chat-message.tsx`. -/
structure MessageMetadata where
  relevant_documents : Option (List RelevantDocument)
  model_used : Option String
deriving DecidableEq, Repr

/-- The `ChatMessage` interface of `chat-message.tsx`.  The `Date` timestamp
is embedded as a natural-number tick. -/
structure ChatMessage where
  id : String
  type : MsgType
  content : String
  timestamp : Nat
  metadata : Option MessageMetadata
deriving DecidableEq, Repr

/-- The request body sent by `apiClient.query` in `handleSendMessage`
(`animated-ai-chat.tsx`, lines 291-295): exactly the three fields of the
`POST /query` interface. -/
structure QueryRequest where
  query : String
  max_results : Nat
  include_metadata : Bool
deriving DecidableEq, Repr

/-- The response of `apiClient.query`: answer, relevant documents and model
identifier, as consumed in `handleSendMessage` (lines 297-306). -/
structure QueryResponse where
  answer : String
  relevant_documents : List RelevantDocument
  model_used : String
deriving DecidableEq, Repr

/-- The component state of `AnimatedAIChat` that the verified handlers touch:
`value`, `activeSuggestion`, `showCommandPalette`, `messages`, `isLoading`,
`error` (`animated-ai-chat.tsx`, lines 135-141).  `activeSuggestion` is an
integer because the code uses the sentinel value -1. -/
structure ChatState where
  value : String
  activeSuggestion : Int
  showCommandPalette : Bool
  messages : List ChatMessage
  isLoading : Bool
  error : Option String
deriving DecidableEq, Repr

/-- A JavaScript thrown value as discriminated by the catch block of
`handleSendMessage` (line 310): either an `Error` object carrying a message,
or any other value. -/
inductive JsError where
  | errorObj (message : String)
  | nonError
deriving DecidableEq, Repr

/-- The error string computed by
`err instanceof Error ? err.message : 'Failed to get response'`
(`animated-ai-chat.tsx`, line 310). -/
def errMessage : JsError → String
  | JsError.errorObj m => m
  | JsError.nonError => "Failed to get response"

/-- JavaScript `String.prototype.trim`: drop leading and trailing whitespace.
Implemented over the character list so that it evaluates inside the kernel. -/
def jsTrim (s : String) : String :=
  String.mk (((s.data.dropWhile Char.isWhitespace).reverse.dropWhile
    Char.isWhitespace).reverse)

/-- The user message built in `handleSendMessage` (lines 277-282): the
trimmed input as a user-typed message stamped with the current time. -/
def userMessage (s : ChatState) (now : Nat) : ChatMessage :=
  { id := toString now
    type := MsgType.user
    content := jsTrim s.value
    timestamp := now
    metadata := none }

/-- The assistant message built in `handleSendMessage` on success
(lines 297-306): the response answer, with the relevant documents and model
identifier carried in the metadata. -/
def assistantMessage (resp : QueryResponse) (now : Nat) : ChatMessage :=
  { id := toString (now + 1)
    type := MsgType.assistant
    content := resp.answer
    timestamp := now
    metadata := some
      { relevant_documents := some resp.relevant_documents
        model_used := some resp.model_used } }

/-- Big-step embedding of `handleSendMessage` (`animated-ai-chat.tsx`,
lines 275-316).  The guard `if (value.trim() && !isLoading)` gates the whole
body.  When it passes, the user message is appended, the input is cleared and
one `apiClient.query` call is made with the trimmed input, `max_results: 5`
and `include_metadata: true`; the outcome of that call is the `api` argument.
On success the assistant message is appended and `error` stays `null`; on
failure `error` is set from the thrown value and no assistant message is
appended.  `isLoading` is `false` again in the final state on both paths (the
`finally` block).  The function returns the final state together with the
list of `apiClient.query` calls made. -/
def handleSendMessage (s : ChatState) (api : Except JsError QueryResponse)
    (now : Nat) : ChatState × List QueryRequest :=
  if jsTrim s.value ≠ "" ∧ s.isLoading = false then
    let req : QueryRequest :=
      { query := jsTrim s.value, max_results := 5, include_metadata := true }
    match api with
    | Except.ok resp =>
        ({ s with
            value := ""
            messages := s.messages ++ [userMessage s now, assistantMessage resp now]
            isLoading := false
            error := none }, [req])
    | Except.error err =>
        ({ s with
            value := ""
            messages := s.messages ++ [userMessage s now]
            isLoading := false
            error := some (errMessage err) }, [req])
  else (s, [])

/-- The `disabled` prop of the Send button
(`animated-ai-chat.tsx`, line 570): `isLoading || !value.trim()`. -/
def sendButtonDisabled (s : ChatState) : Bool :=
  s.isLoading || (jsTrim s.value == "")

/-- The content of the welcome message (the apostrophe is built explicitly). -/
def welcomeContent : String :=
  "Hello! I" ++ String.mk [Char.ofNat 39] ++
  "m Vedika, your ISRO knowledge assistant. I can help you with information about Indian satellites, spacecraft, launch vehicles, and space missions. What would you like to know?"

/-- The welcome message installed by `clearChat` (and by the initial mount
effect), `animated-ai-chat.tsx` lines 344-349. -/
def welcomeMessage (now : Nat) : ChatMessage :=
  { id := "welcome"
    type := MsgType.assistant
    content := welcomeContent
    timestamp := now
    metadata := none }

/-- Embedding of `clearChat` (`animated-ai-chat.tsx`, lines 343-351):
replaces the message list with the single welcome message and clears the
error; nothing else is touched. -/
def clearChat (s : ChatState) (now : Nat) : ChatState :=
  { s with messages := [welcomeMessage now], error := none }

/-- A command-palette entry, from the `CommandSuggestion` interface of
`animated-ai-chat.tsx` (lines 72-77).  The icon is a React node and is
omitted; the `prefix` field is embedded as `slashCommand`. -/
structure CommandSuggestion where
  label : String
  description : String
  slashCommand : String
deriving DecidableEq, Repr

/-- The fixed list of four suggestions (`animated-ai-chat.tsx`,
lines 150-175). -/
def commandSuggestions : List CommandSuggestion :=
  [ { label := "Chandrayaan"
      description := "Learn about Chandrayaan missions"
      slashCommand := "/chandrayaan" }
  , { label := "Satellites"
      description := "Explore ISRO satellites"
      slashCommand := "/satellites" }
  , { label := "Launch Vehicles"
      description := "Learn about rockets"
      slashCommand := "/launchers" }
  , { label := "ISRO Centres"
      description := "Explore ISRO facilities"
      slashCommand := "/centres" } ]

/-- The ArrowDown updater of `handleKeyDown` while the palette is shown
(`animated-ai-chat.tsx`, lines 238-242):
`prev < commandSuggestions.length - 1 ? prev + 1 : 0`. -/
def arrowDownSuggestion (prev : Int) : Int :=
  if prev < (commandSuggestions.length : Int) - 1 then prev + 1 else 0

/-- The ArrowUp updater of `handleKeyDown` while the palette is shown
(`animated-ai-chat.tsx`, lines 243-247):
`prev > 0 ? prev - 1 : commandSuggestions.length - 1`. -/
def arrowUpSuggestion (prev : Int) : Int :=
  if prev > 0 then prev - 1 else (commandSuggestions.length : Int) - 1

/-- The sources block rendered for a message by the `ChatMessage` component:
the header document count and the list of documents actually displayed. -/
structure RenderedSources where
  header : Option Nat
  docs : List RelevantDocument
deriving DecidableEq, Repr

/-- Embedding of the sources section of the `ChatMessage` component
(`chat-message.tsx`, lines 60-90).  The section renders only when the
message is not a user message and `metadata?.relevant_documents` is present
(in JavaScript an empty array is truthy, so presence alone decides).  The
header shows the full length of `relevant_documents`; the displayed entries
are `relevant_documents.slice(0, 3)`. -/
def renderSources (m : ChatMessage) : RenderedSources :=
  match m.type, m.metadata with
  | MsgType.assistant, some md =>
      match md.relevant_documents with
      | some docs => { header := some docs.length, docs := docs.take 3 }
      | none => { header := none, docs := [] }
  | _, _ => { header := none, docs := [] }

/-- Modelled from the spec: one entry of the backend vector index (the
ChromaDB collection built by the backend, which is not among the available
sources).  Per the spec an Index Entry pairs an embedding vector with its
chunk content and metadata (record name, source file). -/
structure IndexEntry where
  vector : List ℚ
  content : String
  metadata : Option DocMetadata
deriving DecidableEq, Repr

/-- Modelled from the spec: the distance between two embedding vectors.  The
spec leaves the metric open (cosine or L2); squared L2 distance is used,
a non-negative dissimilarity score with lower meaning more similar. -/
def l2distSq : List ℚ → List ℚ → ℚ
  | [], _ => 0
  | _ :: _, [] => 0
  | a :: as, b :: bs => (a - b) * (a - b) + l2distSq as bs

/-- Ranking relation on retrieved documents: ordered by distance. -/
def distLE (a b : RelevantDocument) : Prop :=
  a.distance ≤ b.distance

instance : DecidableRel distLE :=
  fun a b => inferInstanceAs (Decidable (a.distance ≤ b.distance))

instance : IsTotal RelevantDocument distLE :=
  ⟨fun a b => le_total a.distance b.distance⟩

instance : IsTrans RelevantDocument distLE :=
  ⟨fun _ _ _ => le_trans⟩

/-- Modelled from the spec: scoring step of the backend Retriever — every
index entry becomes a (content, distance, metadata) tuple, with the distance
to the query vector. -/
def scoredDocs (index : List IndexEntry) (qv : List ℚ) :
    List RelevantDocument :=
  index.map fun e =>
    { content := e.content
      distance := l2distSq qv e.vector
      metadata := e.metadata }

/-- Modelled from the spec: the backend Retriever `search(queryText, k)`
(not among the available sources).  Every index entry is scored by distance
to the query vector, the entries are sorted by ascending distance with a
stable sort (ties keep insertion order), `k` is clamped to
`[1, corpus size]`, and the `k` best entries are returned.  An empty corpus
yields an empty result, not an error.  The query embedding step is left to
the caller: `search` takes the query vector. -/
def search (index : List IndexEntry) (qv : List ℚ) (k : Nat) :
    List RelevantDocument :=
  (List.insertionSort distLE (scoredDocs index qv)).take
    (min (max k 1) (scoredDocs index qv).length)

/-- Modelled from the spec: the model identifier reported by the backend
(the README names OpenRouter Qwen 3.5 30B). -/
def modelUsedId : String := "qwen-3.5-30b"

/-- Modelled from the spec: the answer returned when the retrieved context
is insufficient — the prompt template instructs the model to say so
explicitly, and with no retrieved context the orchestrator reports exactly
that. -/
def insufficientContextAnswer : String :=
  "The knowledge base does not contain enough information to answer this question."

/-- Modelled from the spec: a stand-in for the Answer Generator on non-empty
context, grounding the answer in the retrieved snippets. -/
def answerFromContext (docs : List RelevantDocument) : String :=
  String.intercalate " " (docs.map fun d => d.content)

/-- Modelled from the spec: the backend Query Orchestrator (not among the
available sources).  It drives Retriever, Context Assembler and Answer
Generator in sequence and returns `(answer, relevant_documents, model_used)`;
on an empty retrieval the answer indicates insufficient information and
`relevant_documents` is empty. -/
def queryPipeline (index : List IndexEntry) (qv : List ℚ) (k : Nat) :
    QueryResponse :=
  let docs := search index qv k
  if docs.isEmpty then
    { answer := insufficientContextAnswer
      relevant_documents := []
      model_used := modelUsedId }
  else
    { answer := answerFromContext docs
      relevant_documents := docs
      model_used := modelUsedId }

lemma l2distSq_nonneg : ∀ u v : List ℚ, 0 ≤ l2distSq u v := by
  intro u
  induction u with
  | nil => intro v; simp [l2distSq]
  | cons a as ih =>
    intro v
    cases v with
    | nil => simp [l2distSq]
    | cons b bs =>
      have h1 : 0 ≤ (a - b) * (a - b) := mul_self_nonneg _
      have h2 : 0 ≤ l2distSq as bs := ih bs
      simpa [l2distSq] using add_nonneg h1 h2

/-- Concrete states used by the witnesses below. -/
def baseState : ChatState :=
  { value := ""
    activeSuggestion := -1
    showCommandPalette := false
    messages := []
    isLoading := false
    error := none }

def whitespaceState : ChatState := { baseState with value := "   " }

def readyState : ChatState := { baseState with value := " ISRO? " }

def loadingState : ChatState := { readyState with isLoading := true }

def sampleResponse : QueryResponse :=
  { answer := "PSLV is a launch vehicle."
    relevant_documents :=
      [ { content := "PSLV"
          distance := (1 : ℚ) / 2
          metadata := some { record_name := some "PSLV", source_file := some "launchers.json" } } ]
    model_used := "qwen-3.5-30b" }

/-- C1: submitting an input whose trimmed form is empty makes no
`apiClient.query` call and leaves the whole component state — in particular
the message list, the loading flag and the error state — unchanged. -/
theorem handleSendMessage_whitespace_noop (s : ChatState)
    (api : Except JsError QueryResponse) (now : Nat)
    (h : jsTrim s.value = "") :
    handleSendMessage s api now = (s, []) := by
  unfold handleSendMessage
  rw [if_neg]
  intro hc
  exact hc.1 h

theorem handleSendMessage_whitespace_noop_witness :
    handleSendMessage whitespaceState (Except.ok sampleResponse) 0 =
      (whitespaceState, []) :=
  handleSendMessage_whitespace_noop whitespaceState (Except.ok sampleResponse) 0
    (by decide)

/-- C2: when the backend call fails, the final message list is the previous
one extended only by the user message (no assistant message is appended),
and the error state is set to the thrown error message — the `Error`
object's message, or the fixed fallback text for non-`Error` values. -/
theorem handleSendMessage_failure_allOrNothing (s : ChatState) (e : JsError)
    (now : Nat) (h1 : jsTrim s.value ≠ "") (h2 : s.isLoading = false) :
    (handleSendMessage s (Except.error e) now).1.messages
      = s.messages ++ [userMessage s now] ∧
    (userMessage s now).type = MsgType.user ∧
    (handleSendMessage s (Except.error e) now).1.error = some (errMessage e) ∧
    (∀ m : String, errMessage (JsError.errorObj m) = m) ∧
    errMessage JsError.nonError = "Failed to get response" := by
  unfold handleSendMessage
  rw [if_pos ⟨h1, h2⟩]
  exact ⟨rfl, rfl, rfl, fun m => rfl, rfl⟩

theorem handleSendMessage_failure_allOrNothing_witness :
    (handleSendMessage readyState (Except.error JsError.nonError) 0).1.messages
      = readyState.messages ++ [userMessage readyState 0] ∧
    (userMessage readyState 0).type = MsgType.user ∧
    (handleSendMessage readyState (Except.error JsError.nonError) 0).1.error
      = some (errMessage JsError.nonError) ∧
    (∀ m : String, errMessage (JsError.errorObj m) = m) ∧
    errMessage JsError.nonError = "Failed to get response" :=
  handleSendMessage_failure_allOrNothing readyState JsError.nonError 0
    (by decide) rfl

/-- C3: while `isLoading` is true a re-entrant `handleSendMessage` call
makes no `apiClient.query` call and changes nothing, the Send button is
disabled, and whenever a call does start (`isLoading` was false) the final
state has `isLoading` false again on both the success and the failure
path. -/
theorem handleSendMessage_single_flight (s : ChatState)
    (api : Except JsError QueryResponse) (now : Nat) :
    (s.isLoading = true → handleSendMessage s api now = (s, [])) ∧
    (s.isLoading = true → sendButtonDisabled s = true) ∧
    (s.isLoading = false →
      (handleSendMessage s api now).1.isLoading = false) := by
  refine ⟨?_, ?_, ?_⟩
  · intro h
    unfold handleSendMessage
    rw [if_neg]
    intro hc
    rw [h] at hc
    exact absurd hc.2 (by decide)
  · intro h
    simp [sendButtonDisabled, h]
  · intro h
    unfold handleSendMessage
    by_cases hv : jsTrim s.value ≠ ""
    · rw [if_pos ⟨hv, h⟩]
      cases api <;> rfl
    · rw [if_neg (fun hc => hv hc.1)]
      exact h

theorem handleSendMessage_single_flight_witness :
    handleSendMessage loadingState (Except.ok sampleResponse) 0
      = (loadingState, []) ∧
    sendButtonDisabled loadingState = true ∧
    (handleSendMessage readyState (Except.ok sampleResponse) 0).1.isLoading
      = false :=
  ⟨(handleSendMessage_single_flight loadingState (Except.ok sampleResponse) 0).1 rfl,
   (handleSendMessage_single_flight loadingState (Except.ok sampleResponse) 0).2.1 rfl,
   (handleSendMessage_single_flight readyState (Except.ok sampleResponse) 0).2.2 rfl⟩

/-- C4: every request sent by `handleSendMessage` carries exactly the three
fields of the query interface, with the trimmed user input as `query`,
`max_results = 5` (inside the required bounds 1-20) and
`include_metadata = true` — and exactly one such request is sent. -/
theorem handleSendMessage_request_fields (s : ChatState)
    (api : Except JsError QueryResponse) (now : Nat)
    (h1 : jsTrim s.value ≠ "") (h2 : s.isLoading = false) :
    (handleSendMessage s api now).2
      = [{ query := jsTrim s.value, max_results := 5, include_metadata := true }] ∧
    ∀ req ∈ (handleSendMessage s api now).2,
      1 ≤ req.max_results ∧ req.max_results ≤ 20 := by
  unfold handleSendMessage
  rw [if_pos ⟨h1, h2⟩]
  cases api with
  | ok resp =>
      refine ⟨rfl, ?_⟩
      intro req hreq
      rw [List.mem_singleton] at hreq
      rw [hreq]
      exact ⟨by norm_num, by norm_num⟩
  | error err =>
      refine ⟨rfl, ?_⟩
      intro req hreq
      rw [List.mem_singleton] at hreq
      rw [hreq]
      exact ⟨by norm_num, by norm_num⟩

theorem handleSendMessage_request_fields_witness :
    (handleSendMessage readyState (Except.ok sampleResponse) 0).2
      = [{ query := jsTrim readyState.value, max_results := 5, include_metadata := true }] ∧
    ∀ req ∈ (handleSendMessage readyState (Except.ok sampleResponse) 0).2,
      1 ≤ req.max_results ∧ req.max_results ≤ 20 :=
  handleSendMessage_request_fields readyState (Except.ok sampleResponse) 0
    (by decide) rfl

/-- C5: on a successful query exactly one assistant message is appended,
whose content is the response answer and whose metadata carries the
response's relevant documents and model identifier unchanged. -/
theorem handleSendMessage_success_appends_one (s : ChatState)
    (resp : QueryResponse) (now : Nat)
    (h1 : jsTrim s.value ≠ "") (h2 : s.isLoading = false) :
    (handleSendMessage s (Except.ok resp) now).1.messages
      = s.messages ++ [userMessage s now, assistantMessage resp now] ∧
    (assistantMessage resp now).type = MsgType.assistant ∧
    (assistantMessage resp now).content = resp.answer ∧
    (assistantMessage resp now).metadata
      = some { relevant_documents := some resp.relevant_documents
               model_used := some resp.model_used } ∧
    ((handleSendMessage s (Except.ok resp) now).1.messages.filter
        (fun m => decide (m.type = MsgType.assistant))).length
      = (s.messages.filter (fun m => decide (m.type = MsgType.assistant))).length
          + 1 := by
  have hmsg : (handleSendMessage s (Except.ok resp) now).1.messages
      = s.messages ++ [userMessage s now, assistantMessage resp now] := by
    unfold handleSendMessage
    rw [if_pos ⟨h1, h2⟩]
  refine ⟨hmsg, rfl, rfl, rfl, ?_⟩
  rw [hmsg, List.filter_append, List.length_append]
  simp [userMessage, assistantMessage]

theorem handleSendMessage_success_appends_one_witness :
    (handleSendMessage readyState (Except.ok sampleResponse) 0).1.messages
      = readyState.messages ++ [userMessage readyState 0, assistantMessage sampleResponse 0] ∧
    (assistantMessage sampleResponse 0).type = MsgType.assistant ∧
    (assistantMessage sampleResponse 0).content = sampleResponse.answer ∧
    (assistantMessage sampleResponse 0).metadata
      = some { relevant_documents := some sampleResponse.relevant_documents
               model_used := some sampleResponse.model_used } ∧
    ((handleSendMessage readyState (Except.ok sampleResponse) 0).1.messages.filter
        (fun m => decide (m.type = MsgType.assistant))).length
      = (readyState.messages.filter
          (fun m => decide (m.type = MsgType.assistant))).length + 1 :=
  handleSendMessage_success_appends_one readyState sampleResponse 0
    (by decide) rfl

lemma mem_search {index : List IndexEntry} {qv : List ℚ} {k : Nat}
    {d : RelevantDocument} (hd : d ∈ search index qv k) :
    ∃ e ∈ index,
      d = { content := e.content
            distance := l2distSq qv e.vector
            metadata := e.metadata } := by
  unfold search at hd
  have h1 := List.take_subset _ _ hd
  rw [List.mem_insertionSort] at h1
  unfold scoredDocs at h1
  rw [List.mem_map] at h1
  obtain ⟨e, he, hde⟩ := h1
  exact ⟨e, he, hde.symm⟩

/-- C6: every search result is an ordered sequence of (content, distance,
metadata) tuples whose distances are all non-negative and non-decreasing
across the sequence. -/
theorem search_sorted_nonneg (index : List IndexEntry) (qv : List ℚ)
    (k : Nat) :
    (∀ d ∈ search index qv k, 0 ≤ d.distance) ∧
    (search index qv k).Pairwise distLE := by
  constructor
  · intro d hd
    obtain ⟨e, _, hde⟩ := mem_search hd
    rw [hde]
    exact l2distSq_nonneg qv e.vector
  · have hs : (List.insertionSort distLE (scoredDocs index qv)).Pairwise distLE :=
      List.sorted_insertionSort distLE (scoredDocs index qv)
    exact hs.sublist (List.take_sublist _ _)

/-- C7: a query against an empty corpus returns an empty sequence rather
than an error, and the pipeline response indicates insufficient information
with an empty `relevant_documents` list. -/
theorem search_empty_corpus (qv : List ℚ) (k : Nat) :
    search [] qv k = [] ∧
    queryPipeline [] qv k
      = { answer := insufficientContextAnswer
          relevant_documents := []
          model_used := modelUsedId } := by
  have h : search [] qv k = [] := by
    unfold search scoredDocs
    simp
  refine ⟨h, ?_⟩
  unfold queryPipeline
  rw [h]
  rfl

/-- C8: for an assistant message carrying relevant documents, the component
displays only the first three documents while the Sources header counts the
full list, so a five-document response has two citations that are never
displayed. -/
theorem renderSources_take_three (m : ChatMessage) (md : MessageMetadata)
    (docs : List RelevantDocument)
    (h1 : m.type = MsgType.assistant) (h2 : m.metadata = some md)
    (h3 : md.relevant_documents = some docs) :
    (renderSources m).docs = docs.take 3 ∧
    (renderSources m).docs.length ≤ 3 ∧
    (renderSources m).header = some docs.length ∧
    (docs.length = 5 →
      docs.length - (renderSources m).docs.length = 2) := by
  have hr : renderSources m
      = { header := some docs.length, docs := docs.take 3 } := by
    unfold renderSources
    rw [h1, h2]
    simp [h3]
  refine ⟨by rw [hr], ?_, by rw [hr], ?_⟩
  · rw [hr]
    simp [List.length_take]
  · intro h5
    rw [hr]
    simp [List.length_take, h5]

def sampleDoc (i : Nat) : RelevantDocument :=
  { content := "doc " ++ toString i, distance := (i : ℚ), metadata := none }

def fiveDocs : List RelevantDocument :=
  [sampleDoc 0, sampleDoc 1, sampleDoc 2, sampleDoc 3, sampleDoc 4]

def fiveDocMeta : MessageMetadata :=
  { relevant_documents := some fiveDocs, model_used := some "qwen-3.5-30b" }

def fiveDocMessage : ChatMessage :=
  { id := "42"
    type := MsgType.assistant
    content := "an answer"
    timestamp := 0
    metadata := some fiveDocMeta }

theorem renderSources_take_three_witness :
    (renderSources fiveDocMessage).docs = fiveDocs.take 3 ∧
    (renderSources fiveDocMessage).docs.length ≤ 3 ∧
    (renderSources fiveDocMessage).header = some fiveDocs.length ∧
    (fiveDocs.length = 5 →
      fiveDocs.length - (renderSources fiveDocMessage).docs.length = 2) :=
  renderSources_take_three fiveDocMessage fiveDocMeta fiveDocs rfl rfl rfl

/-- C9: while the palette is shown, arrow-key navigation from any in-bounds
index stays within the bounds, ArrowDown wraps from the last index to 0, and
ArrowUp wraps from 0 to the last index. -/
theorem suggestion_navigation_wraps (prev : Int)
    (h : 0 ≤ prev ∧ prev ≤ (commandSuggestions.length : Int) - 1) :
    (0 ≤ arrowDownSuggestion prev ∧
      arrowDownSuggestion prev ≤ (commandSuggestions.length : Int) - 1) ∧
    (0 ≤ arrowUpSuggestion prev ∧
      arrowUpSuggestion prev ≤ (commandSuggestions.length : Int) - 1) ∧
    arrowDownSuggestion ((commandSuggestions.length : Int) - 1) = 0 ∧
    arrowUpSuggestion 0 = (commandSuggestions.length : Int) - 1 := by
  obtain ⟨h0, h1⟩ := h
  have hlen : (commandSuggestions.length : Int) = 4 := by rfl
  rw [hlen] at h1
  simp only [arrowDownSuggestion, arrowUpSuggestion, hlen]
  refine ⟨⟨?_, ?_⟩, ⟨?_, ?_⟩, ?_, ?_⟩ <;> split <;> omega

theorem suggestion_navigation_wraps_witness :
    ((0 ≤ arrowDownSuggestion 2 ∧
      arrowDownSuggestion 2 ≤ (commandSuggestions.length : Int) - 1) ∧
    (0 ≤ arrowUpSuggestion 2 ∧
      arrowUpSuggestion 2 ≤ (commandSuggestions.length : Int) - 1) ∧
    arrowDownSuggestion ((commandSuggestions.length : Int) - 1) = 0 ∧
    arrowUpSuggestion 0 = (commandSuggestions.length : Int) - 1) :=
  suggestion_navigation_wraps 2 (by decide)

/-- C10: `clearChat` resets the message list to exactly the single welcome
message (id `welcome`, assistant role) and clears the error, leaving the
input value, the loading flag, the active suggestion and the palette
visibility unchanged. -/
theorem clearChat_resets (s : ChatState) (now : Nat) :
    (clearChat s now).messages = [welcomeMessage now] ∧
    (welcomeMessage now).id = "welcome" ∧
    (welcomeMessage now).type = MsgType.assistant ∧
    (clearChat s now).error = none ∧
    (clearChat s now).value = s.value ∧
    (clearChat s now).isLoading = s.isLoading ∧
    (clearChat s now).activeSuggestion = s.activeSuggestion ∧
    (clearChat s now).showCommandPalette = s.showCommandPalette :=
  ⟨rfl, rfl, rfl, rfl, rfl, rfl, rfl, rfl⟩

end SatAI
